import Mathlib

/-!
Shallow embedding of the moov-io `iso8583-connection` package
(`connection.go`) and proofs of the specification's claims about it.

Go values are modelled as follows: Go `error` values become the inductive
`GoError` (with a constructor for each error shape the file builds);
fallible Go functions return `Except GoError _` or `Option GoError`;
byte slices become `List Nat`; the external `iso8583.Message` codec is an
abstract record exposing exactly what `connection.go` uses of it (the MTI
string returned by `GetMTI`, and `GetString`).  The concurrent parts
(writer loop iteration, response dispatch, teardown) are embedded as pure
functions from their inputs to the ordered list of observable `Event`s
they perform, so temporal claims become statements about positions in
those traces.
-/

namespace Iso8583Conn

/-- Go `error` values built by `connection.go`.  `simple` is
`errors.New`/`fmt.Errorf` without wrapping, `wrapped` is
`fmt.Errorf("...: %w", err)` (and also `utils.NewSafeError`, which wraps an
error under a fixed message), `unpackErr` is the `ErrUnpack` struct with its
`Err` and `RawMessage` fields, and the two sentinel errors are the package
variables `ErrConnectionClosed` and `ErrSendTimeout`. -/
inductive GoError where
  | simple (msg : String)
  | wrapped (msg : String) (inner : GoError)
  | unpackErr (inner : GoError) (rawMessage : List Nat)
  | errConnectionClosed
  | errSendTimeout
deriving DecidableEq, Repr

/-- `(*ErrUnpack).Error()` and the `Error()` of the other error shapes:
`fmt.Errorf("%s: %w", ...)` renders the wrapping message, a colon, and the
inner message; `ErrUnpack.Error()` returns exactly `e.Err.Error()`
(connection.go:52-54), so the raw bytes never appear. -/
def GoError.errorMsg : GoError → String
  | .simple msg => msg
  | .wrapped msg inner => msg ++ ": " ++ inner.errorMsg
  | .unpackErr inner _ => inner.errorMsg
  | .errConnectionClosed => "connection closed"
  | .errSendTimeout => "message send timeout"

/-- Go `errors.Unwrap`: `ErrUnpack.Unwrap` returns `e.Err`
(connection.go:56-58); `fmt.Errorf` with `%w` unwraps to the wrapped error;
the sentinels and plain errors unwrap to nothing. -/
def GoError.unwrapErr : GoError → Option GoError
  | .wrapped _ inner => some inner
  | .unpackErr inner _ => some inner
  | _ => none

/-- Go `errors.Is`: walks the `Unwrap` chain looking for the target. -/
def GoError.errorsIs : GoError → GoError → Bool
  | e@(.wrapped _ inner), t => decide (e = t) || inner.errorsIs t
  | e@(.unpackErr inner _), t => decide (e = t) || inner.errorsIs t
  | e, t => decide (e = t)

/-- Whether an error value carries the given raw bytes somewhere in its
`Unwrap` chain (the property `ErrUnpack.RawMessage` provides access to). -/
def GoError.carriesRaw : GoError → List Nat → Prop
  | .wrapped _ inner, raw => inner.carriesRaw raw
  | .unpackErr _ rawMessage, raw => rawMessage = raw
  | _, _ => False

/-- The external `iso8583.Message` codec, restricted to what
`connection.go` uses of it.  `mtiVal` is the string returned by
`GetMTI()` (the code discards `GetMTI`'s error, connection.go:469);
`getString` is `GetString(fieldIndex)`; `packResult` is `Pack()`.
A possibly-nil `*iso8583.Message` is an `Option Message`. -/
structure Message where
  mtiVal : String
  getString : Nat → Except GoError String
  packResult : Except GoError (List Nat)

/-- Position of the MTI character that specifies the message function
(connection.go:455). -/
def messageFunctionIndex : Nat := 2

/-- Message-function characters that mark responses to our requests
(connection.go:458-461). -/
def messageFunctionRequestResponse : Char := '1'

/-- Advice-response message function (connection.go:459). -/
def messageFunctionAdviceResponse : Char := '3'

/-- Notification-acknowledgment message function (connection.go:460). -/
def messageFunctionNotificationAcknowledgment : Char := '5'

/-- Instruction-acknowledgment message function (connection.go:461). -/
def messageFunctionInstructionAcknowledgment : Char := '7'

/-- `isResponse` (connection.go:464-486): nil messages are not responses;
an MTI shorter than 4 characters is not a response; otherwise the
message-function character decides via the four-case switch. -/
def isResponse : Option Message → Bool
  | none => false
  | some message =>
    let mti := message.mtiVal
    if mti.length < 4 then false
    else
      let messageFunction := mti.toList.getD messageFunctionIndex ' '
      if messageFunction = messageFunctionRequestResponse then true
      else if messageFunction = messageFunctionAdviceResponse then true
      else if messageFunction = messageFunctionNotificationAcknowledgment then true
      else if messageFunction = messageFunctionInstructionAcknowledgment then true
      else false

/-- `requestID` (connection.go:435-450): errors on a nil message, on a
failing `GetString(11)`, and on an empty STAN; otherwise returns the STAN. -/
def requestID : Option Message → Except GoError String
  | none => .error (.simple "message required")
  | some message =>
    match message.getString 11 with
    | .error err => .error (.wrapped "getting STAN (field 11) of the message" err)
    | .ok stan =>
      if stan = "" then .error (.simple "STAN is missing")
      else .ok stan

/-- The `request` struct (connection.go:287-299).  The channels themselves
carry no data in the model; `hasReplyCh` records whether `replyCh` is
non-nil (Send sets it, Reply leaves it nil), which is what `writeLoop`
branches on. -/
structure Request where
  rawMessage : List Nat
  reqID : String
  hasReplyCh : Bool
deriving DecidableEq, Repr

/-- The user-supplied handlers from `Options` that the claims mention
(whether each is configured, and how many `ConnectionClosedHandlers`). -/
structure HandlerConfig where
  hasErrorHandler : Bool
  hasInboundMessageHandler : Bool
  numClosedHandlers : Nat
deriving DecidableEq, Repr

/-- Observable actions of the connection engine, in program order.  Each
constructor names the Go statement it stands for: map insertion and lookup
on `respMap`, channel deliveries, `conn.Write`, `c.wg.Wait()`,
`close(c.done)`, `c.conn.Close()`, setting the `closing` flag, placing a
request on `requestsCh`, and the fire-and-forget handler invocations. -/
inductive Event where
  | insertPending (rid : String)
  | lookupPending (rid : String)
  | deliverErr (rid : String) (e : GoError)
  | deliverNil
  | deliverReply (rid : String)
  | writeTransport (bytes : List Nat)
  | wgWait
  | closeDone
  | closeTransport
  | setClosing
  | enqueue (req : Request)
  | callErrorHandler (e : GoError)
  | callInboundHandler
  | callClosedHandler
deriving DecidableEq, Repr

/-- Number of occurrences of an event in a trace. -/
def countEv (e : Event) : List Event → Nat
  | [] => 0
  | x :: xs => (if x = e then 1 else 0) + countEv e xs

/-- Index of the first occurrence of an event in a trace (length of the
trace if absent). -/
def firstPos (e : Event) : List Event → Nat
  | [] => 0
  | x :: xs => if x = e then 0 else firstPos e xs + 1

/-- Go-map insertion on the pending table, tracked by keys only: the
`response` values registered are the request's channels, which the model
identifies by the request ID. -/
def insertKey (rid : String) (respMap : List String) : List String :=
  if rid ∈ respMap then respMap else rid :: respMap

/-- `handleError` (connection.go:194-200): a no-op when no `ErrorHandler`
is configured, otherwise it invokes the handler with the error. -/
def handleErrorEvents (cfg : HandlerConfig) (e : GoError) : List Event :=
  if cfg.hasErrorHandler then [Event.callErrorHandler e] else []

/-- The synchronous part of `Send` (connection.go:310-353): check
`closing`; `Pack`; `writeMessageLength` into the buffer; append the packed
bytes (a `bytes.Buffer` write, which cannot fail); derive the request ID;
build the request and place it on `requestsCh`.  Each early `return`
produces the wrapped error and an empty trace.  `wml n` is the framing
callback's output for a payload of `n` bytes. -/
def sendEvents (closing : Bool) (wml : Nat → Except GoError (List Nat))
    (message : Message) : Except GoError Request × List Event :=
  if closing then (.error .errConnectionClosed, [])
  else
    match message.packResult with
    | .error err => (.error (.wrapped "packing message" err), [])
    | .ok packed =>
      match wml packed.length with
      | .error err => (.error (.wrapped "writing message header to buffer" err), [])
      | .ok header =>
        match requestID (some message) with
        | .error err => (.error (.wrapped "creating request ID" err), [])
        | .ok reqID =>
          let req : Request := ⟨header ++ packed, reqID, true⟩
          (.ok req, [Event.enqueue req])

/-- The synchronous part of `Reply` (connection.go:387-421): like `Send`
but it derives no request ID and builds a request with a nil `replyCh`. -/
def replyEvents (closing : Bool) (wml : Nat → Except GoError (List Nat))
    (message : Message) : Except GoError Request × List Event :=
  if closing then (.error .errConnectionClosed, [])
  else
    match message.packResult with
    | .error err => (.error (.wrapped "packing message" err), [])
    | .ok packed =>
      match wml packed.length with
      | .error err => (.error (.wrapped "writing message header to buffer" err), [])
      | .ok header =>
        let req : Request := ⟨header ++ packed, "", false⟩
        (.ok req, [Event.enqueue req])

/-- One `writeLoop` iteration on a dequeued request (connection.go:495-518):
if the request has a reply channel, register it in `respMap` under the
pending-requests lock, then write the framed bytes; on a write error report
through `handleError` and leave the loop with the error (fatal); on success,
a request without a reply channel gets nil on its error channel.
`writeErr` is `conn.Write`'s error result. -/
def writeLoopStep (cfg : HandlerConfig) (respMap : List String)
    (req : Request) (writeErr : Option GoError) :
    List Event × List String × Option GoError :=
  let registered :=
    if req.hasReplyCh then
      ([Event.insertPending req.reqID], insertKey req.reqID respMap)
    else ([], respMap)
  match writeErr with
  | some err =>
    (registered.1 ++ [Event.writeTransport req.rawMessage]
       ++ handleErrorEvents cfg
            (.wrapped "failed to write message into connection" err),
     registered.2, some err)
  | none =>
    (registered.1 ++ [Event.writeTransport req.rawMessage]
       ++ (if req.hasReplyCh then [] else [Event.deliverNil]),
     registered.2, none)

/-- `handleResponse` (connection.go:578-615): unpack; on failure wrap the
error and raw bytes in `ErrUnpack`, report through `handleError` (under the
safe-error message) and return.  Otherwise classify with `isResponse`; for
responses derive the request ID, look the slot up in `respMap` under the
lock, and deliver to it, falling back to the `InboundMessageHandler` and
then to `handleError`; non-responses go to the `InboundMessageHandler`
when set and are dropped otherwise.  `unpackResult` is `Unpack`'s outcome
on `raw`. -/
def handleResponseEvents (cfg : HandlerConfig) (respMap : List String)
    (unpackResult : Except GoError Message) (raw : List Nat) : List Event :=
  match unpackResult with
  | .error err =>
    handleErrorEvents cfg
      (.wrapped "failed to unpack message" (.unpackErr err raw))
  | .ok message =>
    if isResponse (some message) then
      match requestID (some message) with
      | .error err => handleErrorEvents cfg (.wrapped "creating request ID" err)
      | .ok reqID =>
        Event.lookupPending reqID ::
          (if reqID ∈ respMap then [Event.deliverReply reqID]
           else if cfg.hasInboundMessageHandler then [Event.callInboundHandler]
           else handleErrorEvents cfg
                  (.simple ("cant find request for ID: " ++ reqID)))
    else
      if cfg.hasInboundMessageHandler then [Event.callInboundHandler] else []

/-- `close` (connection.go:251-265): wait on the completion barrier, close
the done channel, then close the transport when one is present. -/
def closeEvents (hasConn : Bool) : List Event :=
  Event.wgWait :: Event.closeDone ::
    (if hasConn then [Event.closeTransport] else [])

/-- Lifecycle state guarded by `c.mutex`: the `closing` flag, plus whether
a transport is attached (`c.conn != nil`). -/
structure LifeState where
  closing : Bool
  hasConn : Bool
deriving DecidableEq, Repr

/-- `Close` (connection.go:269-280): under the mutex, return nil at once if
already closing, otherwise set `closing` and run `close`.  `tcErr` is the
transport's `Close()` error result; when it fires, `close` wraps it.
Returns (Close's return value, new state, trace). -/
def closeCall (tcErr : Option GoError) (st : LifeState) :
    Option GoError × LifeState × List Event :=
  if st.closing then (none, st, [])
  else
    let result :=
      if st.hasConn then tcErr.map (GoError.wrapped "closing connection")
      else none
    (result, { st with closing := true },
     Event.setClosing :: closeEvents st.hasConn)

/-- `n` sequential `Close` calls from a state, with their combined trace. -/
def closeCalls (tcErr : Option GoError) : Nat → LifeState → List Event × LifeState
  | 0, st => ([], st)
  | n + 1, st =>
    let first := closeCall tcErr st
    let rest := closeCalls tcErr n first.2.1
    (first.2.2 ++ rest.1, rest.2)

/-- `handleConnectionError` (connection.go:203-249): a no-op on a nil error
or when `closing` is already set; otherwise set `closing`, deliver
`ErrConnectionClosed` to every registered slot under the pending-requests
lock, run `close` (the drain goroutine and the barrier-watch goroutine it
spawns perform no observable action of their own), and fire each
`ConnectionClosedHandler`.  The trace lists the actions in program order. -/
def handleConnectionErrorEvents (err : Option GoError) (closing : Bool)
    (respMap : List String) (hasConn : Bool) (numClosedHandlers : Nat) :
    List Event :=
  match err with
  | none => []
  | some _ =>
    if closing then []
    else
      Event.setClosing ::
        (respMap.map
          (fun rid => Event.deliverErr rid GoError.errConnectionClosed))
        ++ closeEvents hasConn
        ++ List.replicate numClosedHandlers Event.callClosedHandler

/-- Trace of the fatal-error teardown path (`handleConnectionError` on a
live connection: non-nil error, `closing` not yet set, transport present). -/
def errTeardownTrace (err : GoError) (respMap : List String) (nH : Nat) :
    List Event :=
  handleConnectionErrorEvents (some err) false respMap true nH

/-- Trace of the user teardown path (`Close` on a live connection). -/
def closeTeardownTrace (tcErr : Option GoError) : List Event :=
  (closeCall tcErr ⟨false, true⟩).2.2

/-- Whether an `Except` result is an error (a Go `err != nil` check). -/
def isErr {α : Type} : Except GoError α → Bool
  | .error _ => true
  | .ok _ => false

/-- The ordering property claim C1 asserts of a teardown trace: the done
channel is closed exactly once, the transport close happens in the trace
and strictly precedes the done close, and every pending-slot delivery
precedes the done close. -/
def ClaimC1Prop (t : List Event) : Prop :=
  countEv Event.closeDone t = 1 ∧
  Event.closeTransport ∈ t ∧
  firstPos Event.closeTransport t < firstPos Event.closeDone t ∧
  ∀ rid e, Event.deliverErr rid e ∈ t →
    firstPos (Event.deliverErr rid e) t < firstPos Event.closeDone t

/-- A well-formed sample response message (MTI 0810, STAN 000001) used by
the concrete witnesses. -/
def sampleMessage : Message :=
  { mtiVal := "0810"
    getString := fun idx => if idx = 11 then .ok "000001" else .ok ""
    packResult := .ok [8, 1, 0] }

/-- A sample message whose STAN (field 11) is empty. -/
def sampleNoStan : Message :=
  { mtiVal := "0810"
    getString := fun _ => .ok ""
    packResult := .ok [8, 1, 0] }

/-- A sample message whose `Pack` fails. -/
def samplePackFail : Message :=
  { mtiVal := "0800"
    getString := fun idx => if idx = 11 then .ok "000001" else .ok ""
    packResult := .error (.simple "pack fail") }

/-- A sample non-response message (MTI 0200, message function '0'). -/
def sampleInbound : Message :=
  { mtiVal := "0200"
    getString := fun idx => if idx = 11 then .ok "000001" else .ok ""
    packResult := .ok [2, 0, 0] }

/-- A sample framing callback writing a one-byte length header. -/
def sampleWml : Nat → Except GoError (List Nat) := fun n => .ok [n]

/-- A sample framing callback that always fails. -/
def sampleWmlFail : Nat → Except GoError (List Nat) :=
  fun _ => .error (.simple "header fail")

theorem countEv_append (e : Event) (l1 l2 : List Event) :
    countEv e (l1 ++ l2) = countEv e l1 + countEv e l2 := by
  induction l1 with
  | nil => simp [countEv]
  | cons x xs ih =>
    show (if x = e then 1 else 0) + countEv e (xs ++ l2) =
      ((if x = e then 1 else 0) + countEv e xs) + countEv e l2
    rw [ih]
    omega

theorem countEv_eq_zero_of_not_mem {e : Event} {l : List Event} (h : e ∉ l) :
    countEv e l = 0 := by
  induction l with
  | nil => rfl
  | cons x xs ih =>
    simp only [List.mem_cons, not_or] at h
    have hne : ¬(x = e) := fun hx => h.1 hx.symm
    simp only [countEv, if_neg hne, ih h.2]

theorem firstPos_append_left {e : Event} {l1 : List Event} (l2 : List Event)
    (h : e ∈ l1) : firstPos e (l1 ++ l2) = firstPos e l1 := by
  induction l1 with
  | nil => cases h
  | cons x xs ih =>
    by_cases hx : x = e
    · simp [firstPos, hx]
    · have hmem : e ∈ xs := by
        rcases List.mem_cons.mp h with h1 | h1
        · exact absurd h1.symm hx
        · exact h1
      simp [firstPos, hx, ih hmem]

theorem firstPos_append_right {e : Event} {l1 : List Event} (l2 : List Event)
    (h : e ∉ l1) : firstPos e (l1 ++ l2) = l1.length + firstPos e l2 := by
  induction l1 with
  | nil => simp
  | cons x xs ih =>
    simp only [List.mem_cons, not_or] at h
    have hne : ¬(x = e) := fun hx => h.1 hx.symm
    show (if x = e then 0 else firstPos e (xs ++ l2) + 1) =
      (x :: xs).length + firstPos e l2
    rw [if_neg hne, ih h.2, List.length_cons]
    omega

theorem firstPos_lt_length {e : Event} {l : List Event} (h : e ∈ l) :
    firstPos e l < l.length := by
  induction l with
  | nil => cases h
  | cons x xs ih =>
    by_cases hx : x = e
    · simp [firstPos, hx]
    · have hmem : e ∈ xs := by
        rcases List.mem_cons.mp h with h1 | h1
        · exact absurd h1.symm hx
        · exact h1
      have := ih hmem
      simp only [firstPos, if_neg hx, List.length_cons]
      omega

end Iso8583Conn

namespace Iso8583Conn

/-- C1: the claim asserts the done channel is closed exactly once, strictly
after the transport has been closed and after all registered pending slots
have been drained.  It is false on the code: `close` (connection.go:251-265)
closes `c.done` and only then calls `c.conn.Close()`, so on the fatal-error
teardown of a live connection with no pending slots the transport close
comes strictly after the done close. -/
theorem claim_C1_counterexample :
    ¬ ClaimC1Prop (handleConnectionErrorEvents (some (GoError.simple "EOF"))
        false [] true 0) := by
  intro h
  exact absurd h.2.2.1 (by decide)

/-- C1 (amended): on every teardown path of a live connection the done
channel is closed exactly once (a second teardown attempt is a guarded
no-op), strictly BEFORE the transport is closed, strictly after the
completion barrier has been waited on, and strictly after every registered
pending slot has been drained (the user-Close path drains no slots at
all). -/
theorem claim_C1_amended (err : GoError) (respMap : List String) (nH : Nat)
    (tcErr : Option GoError) :
    countEv Event.closeDone (errTeardownTrace err respMap nH) = 1 ∧
    countEv Event.closeDone (closeTeardownTrace tcErr) = 1 ∧
    handleConnectionErrorEvents (some err) true respMap true nH = [] ∧
    (closeCall tcErr ⟨true, true⟩).2.2 = [] ∧
    firstPos Event.closeDone (errTeardownTrace err respMap nH) <
      firstPos Event.closeTransport (errTeardownTrace err respMap nH) ∧
    firstPos Event.closeDone (closeTeardownTrace tcErr) <
      firstPos Event.closeTransport (closeTeardownTrace tcErr) ∧
    firstPos Event.wgWait (errTeardownTrace err respMap nH) <
      firstPos Event.closeDone (errTeardownTrace err respMap nH) ∧
    firstPos Event.wgWait (closeTeardownTrace tcErr) <
      firstPos Event.closeDone (closeTeardownTrace tcErr) ∧
    (∀ rid e, Event.deliverErr rid e ∈ errTeardownTrace err respMap nH →
      firstPos (Event.deliverErr rid e) (errTeardownTrace err respMap nH) <
        firstPos Event.closeDone (errTeardownTrace err respMap nH)) ∧
    (∀ rid e, Event.deliverErr rid e ∉ closeTeardownTrace tcErr) := by
  set D := respMap.map
    (fun rid => Event.deliverErr rid GoError.errConnectionClosed) with hDdef
  have hShape : errTeardownTrace err respMap nH =
      Event.setClosing :: (D ++ (Event.wgWait :: Event.closeDone ::
        Event.closeTransport :: List.replicate nH Event.callClosedHandler)) := by
    simp [errTeardownTrace, handleConnectionErrorEvents, closeEvents, hDdef]
  have hClose : closeTeardownTrace tcErr =
      [Event.setClosing, Event.wgWait, Event.closeDone, Event.closeTransport] := by
    simp [closeTeardownTrace, closeCall, closeEvents]
  have hDoneD : Event.closeDone ∉ D := by
    intro hc
    simp [hDdef] at hc
  have hTransD : Event.closeTransport ∉ D := by
    intro hc
    simp [hDdef] at hc
  have hWgD : Event.wgWait ∉ D := by
    intro hc
    simp [hDdef] at hc
  have hLenD : D.length = respMap.length := by
    simp [hDdef]
  have hposDone : firstPos Event.closeDone (errTeardownTrace err respMap nH) =
      respMap.length + 2 := by
    rw [hShape]
    simp only [firstPos]
    rw [firstPos_append_right _ hDoneD]
    simp [firstPos, hLenD, List.length_map]
  have hposTrans :
      firstPos Event.closeTransport (errTeardownTrace err respMap nH) =
        respMap.length + 3 := by
    rw [hShape]
    simp only [firstPos]
    rw [firstPos_append_right _ hTransD]
    simp [firstPos, hLenD, List.length_map]
  have hposWg : firstPos Event.wgWait (errTeardownTrace err respMap nH) =
      respMap.length + 1 := by
    rw [hShape]
    simp only [firstPos]
    rw [firstPos_append_right _ hWgD]
    simp [firstPos, hLenD, List.length_map]
  have hcountErr : countEv Event.closeDone (errTeardownTrace err respMap nH) = 1 := by
    have hCH : Event.closeDone ∉ List.replicate nH Event.callClosedHandler := by
      simp [List.mem_replicate]
    rw [hShape]
    simp only [countEv, countEv_append]
    rw [countEv_eq_zero_of_not_mem hDoneD, countEv_eq_zero_of_not_mem hCH]
    simp
  refine ⟨hcountErr, ?_, ?_, ?_, ?_, ?_, ?_, ?_, ?_, ?_⟩
  · rw [hClose]
    decide
  · simp [handleConnectionErrorEvents]
  · simp [closeCall]
  · rw [hposDone, hposTrans]
    omega
  · rw [hClose]
    decide
  · rw [hposWg, hposDone]
    omega
  · rw [hClose]
    decide
  · intro rid e hmem
    rw [hShape] at hmem
    have hmemD : Event.deliverErr rid e ∈ D := by
      rcases List.mem_cons.mp hmem with h1 | h1
      · cases h1
      rcases List.mem_append.mp h1 with h2 | h2
      · exact h2
      rcases List.mem_cons.mp h2 with h3 | h3
      · cases h3
      rcases List.mem_cons.mp h3 with h4 | h4
      · cases h4
      rcases List.mem_cons.mp h4 with h5 | h5
      · cases h5
      have := List.eq_of_mem_replicate h5
      cases this
    have hfp : firstPos (Event.deliverErr rid e) (errTeardownTrace err respMap nH) =
        firstPos (Event.deliverErr rid e) D + 1 := by
      rw [hShape]
      simp only [firstPos]
      rw [firstPos_append_left _ hmemD]
      simp
    have hlt : firstPos (Event.deliverErr rid e) D < D.length :=
      firstPos_lt_length hmemD
    rw [hfp, hposDone]
    omega
  · intro rid e hmem
    rw [hClose] at hmem
    simp at hmem

/-- Witness for C1 (amended): with one registered slot for STAN "000001",
the slot drain strictly precedes the done close in the fatal teardown
trace. -/
theorem claim_C1_amended_witness :
    firstPos (Event.deliverErr "000001" GoError.errConnectionClosed)
        (errTeardownTrace (GoError.simple "EOF") ["000001"] 1) <
      firstPos Event.closeDone (errTeardownTrace (GoError.simple "EOF") ["000001"] 1) :=
  (claim_C1_amended (GoError.simple "EOF") ["000001"] 1 none).2.2.2.2.2.2.2.2.1
    "000001" GoError.errConnectionClosed
    (by simp [errTeardownTrace, handleConnectionErrorEvents, closeEvents])

end Iso8583Conn

namespace Iso8583Conn

/-- C3: `isResponse` returns true exactly when the message's MTI has at
least 4 characters and its third character (the message-function position)
is one of '1', '3', '5', '7'; a nil message is never a response, and a
message failing the condition is routed without consulting the pending
table (unsolicited inbound). -/
theorem claim_C3_isResponse (m : Message) (cfg : HandlerConfig)
    (respMap : List String) :
    (isResponse (some m) = true ↔
      (4 ≤ m.mtiVal.length ∧
        m.mtiVal.toList.getD 2 ' ' ∈ (['1', '3', '5', '7'] : List Char))) ∧
    isResponse none = false ∧
    (isResponse (some m) = false →
      ∀ rid, Event.lookupPending rid ∉
        handleResponseEvents cfg respMap (.ok m) []) := by
  refine ⟨?_, rfl, ?_⟩
  · by_cases hlen : m.mtiVal.length < 4
    · simp only [isResponse, if_pos hlen]
      constructor
      · intro h
        cases h
      · rintro ⟨h4, -⟩
        omega
    · have hle : 4 ≤ m.mtiVal.length := Nat.le_of_not_lt hlen
      simp only [isResponse, if_neg hlen, messageFunctionIndex,
        messageFunctionRequestResponse, messageFunctionAdviceResponse,
        messageFunctionNotificationAcknowledgment,
        messageFunctionInstructionAcknowledgment]
      set c := m.mtiVal.toList.getD 2 ' ' with hc0
      by_cases h1 : c = '1'
      · simp [h1, hle]
      by_cases h3 : c = '3'
      · simp [h3, hle]
      by_cases h5 : c = '5'
      · simp [h5, hle]
      by_cases h7 : c = '7'
      · simp [h7, hle]
      · simp [h1, h3, h5, h7]
        exact fun _ => hle
  · intro h rid hmem
    simp only [handleResponseEvents, h, if_false] at hmem
    by_cases hib : cfg.hasInboundMessageHandler <;> simp [hib] at hmem

/-- Witness for C3: the sample response message (MTI "0810") satisfies the
characterization, and the sample inbound message (MTI "0200") fails it and
produces no pending-table lookup. -/
theorem claim_C3_isResponse_witness :
    isResponse (some sampleMessage) = true ∧
    Event.lookupPending "000001" ∉
      handleResponseEvents ⟨true, true, 0⟩ [] (.ok sampleInbound) [] :=
  ⟨((claim_C3_isResponse sampleMessage ⟨true, true, 0⟩ []).1).mpr
      (by constructor <;> decide),
   (claim_C3_isResponse sampleInbound ⟨true, true, 0⟩ []).2.2 (by decide) "000001"⟩

/-- C4: `requestID` returns the string value of field 11 on success and
errors exactly on a nil message, a failing field-11 read, or an empty
field-11 value; whenever it errors, `Send` returns the wrapped error
before anything is enqueued. -/
theorem claim_C4_requestID (m : Message)
    (wml : Nat → Except GoError (List Nat)) :
    requestID none = .error (GoError.simple "message required") ∧
    (∀ err, m.getString 11 = .error err →
      requestID (some m) =
        .error (.wrapped "getting STAN (field 11) of the message" err)) ∧
    (m.getString 11 = .ok "" →
      requestID (some m) = .error (GoError.simple "STAN is missing")) ∧
    (∀ stan, m.getString 11 = .ok stan → stan ≠ "" →
      requestID (some m) = .ok stan) ∧
    (isErr (requestID (some m)) = true →
      (sendEvents false wml m).2 = [] ∧
        isErr (sendEvents false wml m).1 = true) := by
  refine ⟨rfl, ?_, ?_, ?_, ?_⟩
  · intro err herr
    simp [requestID, herr]
  · intro hempty
    simp [requestID, hempty]
  · intro stan hstan hne
    simp [requestID, hstan, hne]
  · intro hr
    rcases hpack : m.packResult with e | packed
    · simp [sendEvents, hpack, isErr]
    rcases hw : wml packed.length with e | header
    · simp [sendEvents, hpack, hw, isErr]
    rcases hrid : requestID (some m) with e | rid
    · simp [sendEvents, hpack, hw, hrid, isErr]
    · rw [hrid] at hr
      simp [isErr] at hr

/-- Witness for C4: the sample message with an empty STAN makes
`requestID` fail, and `Send` with it enqueues nothing. -/
theorem claim_C4_requestID_witness :
    requestID (some sampleNoStan) = .error (GoError.simple "STAN is missing") ∧
    (sendEvents false sampleWml sampleNoStan).2 = [] :=
  ⟨(claim_C4_requestID sampleNoStan sampleWml).2.2.1 rfl,
   ((claim_C4_requestID sampleNoStan sampleWml).2.2.2.2 (by decide)).1⟩

end Iso8583Conn

namespace Iso8583Conn

theorem countEv_deliverErr_map (rid : String) (respMap : List String)
    (hnd : respMap.Nodup) (hmem : rid ∈ respMap) :
    countEv (Event.deliverErr rid GoError.errConnectionClosed)
      (respMap.map fun r => Event.deliverErr r GoError.errConnectionClosed) = 1 := by
  induction respMap with
  | nil => cases hmem
  | cons x xs ih =>
    rcases List.mem_cons.mp hmem with h | h
    · subst h
      have hnotin : rid ∉ xs := (List.nodup_cons.mp hnd).1
      have hzero : Event.deliverErr rid GoError.errConnectionClosed ∉
          xs.map fun r => Event.deliverErr r GoError.errConnectionClosed := by
        intro hc
        rcases List.mem_map.mp hc with ⟨r, hr, heq⟩
        cases heq
        exact hnotin hr
      simp only [List.map_cons, countEv, if_pos rfl,
        countEv_eq_zero_of_not_mem hzero]
      simp
    · have hxne : x ≠ rid := by
        intro hx
        subst hx
        exact (List.nodup_cons.mp hnd).1 h
      have hne : ¬(Event.deliverErr x GoError.errConnectionClosed =
          Event.deliverErr rid GoError.errConnectionClosed) := by
        intro hc
        cases hc
        exact hxne rfl
      simp only [List.map_cons, countEv, if_neg hne,
        ih (List.nodup_cons.mp hnd).2 h]

/-- C2: once the `closing` flag is set, `Send` and `Reply` return
`ErrConnectionClosed` without enqueueing anything, and on the fatal-error
teardown every slot registered in the pending table receives
`ErrConnectionClosed` on its error channel exactly once. -/
theorem claim_C2_closing (wml : Nat → Except GoError (List Nat)) (m : Message)
    (respMap : List String) (err : GoError) (hasConn : Bool) (nH : Nat)
    (rid : String) (hnd : respMap.Nodup) (hmem : rid ∈ respMap) :
    sendEvents true wml m = (.error .errConnectionClosed, []) ∧
    replyEvents true wml m = (.error .errConnectionClosed, []) ∧
    countEv (Event.deliverErr rid GoError.errConnectionClosed)
        (handleConnectionErrorEvents (some err) false respMap hasConn nH) = 1 := by
  refine ⟨rfl, rfl, ?_⟩
  have hrest : Event.deliverErr rid GoError.errConnectionClosed ∉
      closeEvents hasConn ++ List.replicate nH Event.callClosedHandler := by
    intro hc
    rcases List.mem_append.mp hc with h1 | h1
    · cases hasConn <;> simp [closeEvents] at h1
    · have := List.eq_of_mem_replicate h1
      cases this
  have hshape : handleConnectionErrorEvents (some err) false respMap hasConn nH =
      Event.setClosing ::
        ((respMap.map fun r => Event.deliverErr r GoError.errConnectionClosed) ++
          (closeEvents hasConn ++ List.replicate nH Event.callClosedHandler)) := by
    simp [handleConnectionErrorEvents]
  rw [hshape,
    show Event.setClosing ::
        ((respMap.map fun r => Event.deliverErr r GoError.errConnectionClosed) ++
          (closeEvents hasConn ++ List.replicate nH Event.callClosedHandler)) =
      [Event.setClosing] ++
        ((respMap.map fun r => Event.deliverErr r GoError.errConnectionClosed) ++
          (closeEvents hasConn ++ List.replicate nH Event.callClosedHandler))
      from rfl,
    countEv_append, countEv_append,
    countEv_deliverErr_map rid respMap hnd hmem,
    countEv_eq_zero_of_not_mem hrest]
  simp [countEv]

/-- Witness for C2: with the single registered STAN "000001", its slot
receives the close error exactly once in the fatal teardown trace. -/
theorem claim_C2_closing_witness :
    countEv (Event.deliverErr "000001" GoError.errConnectionClosed)
        (handleConnectionErrorEvents (some (GoError.simple "EOF")) false
          ["000001"] true 0) = 1 :=
  (claim_C2_closing sampleWml sampleMessage ["000001"] (GoError.simple "EOF")
    true 0 "000001" (by simp) (by simp)).2.2

/-- C5: in a writer-loop iteration, a request carrying a reply slot has its
{correlator, slot} entry inserted into the pending table strictly before
the framed bytes are written to the transport (and the entry is present in
the table afterwards); a request without a reply slot receives nil on its
error channel right after a successful write. -/
theorem claim_C5_writeLoop (cfg : HandlerConfig) (respMap : List String)
    (req : Request) (writeErr : Option GoError) :
    (req.hasReplyCh = true →
      firstPos (Event.insertPending req.reqID)
          (writeLoopStep cfg respMap req writeErr).1 = 0 ∧
      firstPos (Event.writeTransport req.rawMessage)
          (writeLoopStep cfg respMap req writeErr).1 = 1 ∧
      req.reqID ∈ (writeLoopStep cfg respMap req writeErr).2.1) ∧
    (req.hasReplyCh = false → writeErr = none →
      (writeLoopStep cfg respMap req writeErr).1 =
        [Event.writeTransport req.rawMessage, Event.deliverNil]) := by
  constructor
  · intro hrc
    have hmem : req.reqID ∈ insertKey req.reqID respMap := by
      unfold insertKey
      by_cases h : req.reqID ∈ respMap
      · simp [h]
      · simp [h]
    cases writeErr <;>
      simp [writeLoopStep, hrc, firstPos, hmem]
  · intro hrc hw
    subst hw
    simp [writeLoopStep, hrc]

/-- Witness for C5: a concrete Send-originated request is registered at
position 0 and written at position 1; a concrete Reply-originated request
gets nil delivered right after its successful write. -/
theorem claim_C5_writeLoop_witness :
    firstPos (Event.insertPending "000001")
        (writeLoopStep ⟨true, true, 0⟩ [] ⟨[3, 8, 1, 0], "000001", true⟩ none).1 = 0 ∧
    (writeLoopStep ⟨true, true, 0⟩ [] ⟨[3, 8, 1, 0], "", false⟩ none).1 =
      [Event.writeTransport [3, 8, 1, 0], Event.deliverNil] :=
  ⟨((claim_C5_writeLoop ⟨true, true, 0⟩ [] ⟨[3, 8, 1, 0], "000001", true⟩ none).1
      rfl).1,
   (claim_C5_writeLoop ⟨true, true, 0⟩ [] ⟨[3, 8, 1, 0], "", false⟩ none).2
      rfl rfl⟩

/-- C6: every pre-flight failure in `Send` or `Reply` (pack failure,
length-header failure, and for `Send` a failing correlator) is returned to
the caller synchronously as the wrapped error, with nothing enqueued and
hence no pending-table change (the table is only touched by the writer
loop when it dequeues a request). -/
theorem claim_C6_preflight (wml : Nat → Except GoError (List Nat)) (m : Message) :
    (∀ e, m.packResult = .error e →
      sendEvents false wml m = (.error (.wrapped "packing message" e), []) ∧
      replyEvents false wml m = (.error (.wrapped "packing message" e), [])) ∧
    (∀ packed e, m.packResult = .ok packed → wml packed.length = .error e →
      sendEvents false wml m =
        (.error (.wrapped "writing message header to buffer" e), []) ∧
      replyEvents false wml m =
        (.error (.wrapped "writing message header to buffer" e), [])) ∧
    (∀ packed header e, m.packResult = .ok packed →
      wml packed.length = .ok header → requestID (some m) = .error e →
      sendEvents false wml m = (.error (.wrapped "creating request ID" e), [])) := by
  refine ⟨?_, ?_, ?_⟩
  · intro e he
    constructor <;> simp [sendEvents, replyEvents, he]
  · intro packed e hp hw
    constructor <;> simp [sendEvents, replyEvents, hp, hw]
  · intro packed header e hp hw hr
    simp [sendEvents, hp, hw, hr]

/-- Witness for C6: a failing `Pack` and a failing length writer each
surface synchronously from `Send` with an empty trace. -/
theorem claim_C6_preflight_witness :
    sendEvents false sampleWml samplePackFail =
      (.error (.wrapped "packing message" (GoError.simple "pack fail")), []) ∧
    sendEvents false sampleWmlFail sampleMessage =
      (.error (.wrapped "writing message header to buffer"
        (GoError.simple "header fail")), []) :=
  ⟨((claim_C6_preflight sampleWml samplePackFail).1
      (GoError.simple "pack fail") rfl).1,
   ((claim_C6_preflight sampleWmlFail sampleMessage).2.1
      [8, 1, 0] (GoError.simple "header fail") rfl rfl).1⟩

end Iso8583Conn

namespace Iso8583Conn

/-- C7: an inbound frame whose payload fails to unpack makes
`handleResponse` report an `ErrUnpack` (carrying the raw bytes, wrapped
under the safe-error message) through the `ErrorHandler` and return: the
trace holds that single handler call, touches no pending-table entry, and
performs no teardown action, so a subsequent `Send` (here the concrete
sample message) still completes normally. -/
theorem claim_C7_unpack (cfg : HandlerConfig) (respMap : List String)
    (err : GoError) (raw : List Nat) (hEH : cfg.hasErrorHandler = true) :
    handleResponseEvents cfg respMap (.error err) raw =
      [Event.callErrorHandler
        (.wrapped "failed to unpack message" (.unpackErr err raw))] ∧
    GoError.carriesRaw
      (.wrapped "failed to unpack message" (.unpackErr err raw)) raw ∧
    (∀ rid, Event.insertPending rid ∉
        handleResponseEvents cfg respMap (.error err) raw ∧
      Event.lookupPending rid ∉
        handleResponseEvents cfg respMap (.error err) raw) ∧
    Event.setClosing ∉ handleResponseEvents cfg respMap (.error err) raw ∧
    Event.closeDone ∉ handleResponseEvents cfg respMap (.error err) raw ∧
    Event.closeTransport ∉ handleResponseEvents cfg respMap (.error err) raw ∧
    (sendEvents false sampleWml sampleMessage).1 =
      .ok ⟨[3, 8, 1, 0], "000001", true⟩ := by
  have htr : handleResponseEvents cfg respMap (.error err) raw =
      [Event.callErrorHandler
        (.wrapped "failed to unpack message" (.unpackErr err raw))] := by
    simp [handleResponseEvents, handleErrorEvents, hEH]
  refine ⟨htr, by simp [GoError.carriesRaw], ?_, ?_, ?_, ?_, ?_⟩
  · intro rid
    rw [htr]
    constructor <;> simp
  · rw [htr]
    simp
  · rw [htr]
    simp
  · rw [htr]
    simp
  · rfl

/-- Witness for C7: with an `ErrorHandler` configured, a failing unpack of
raw bytes [1, 2] produces exactly the handler call carrying those bytes. -/
theorem claim_C7_unpack_witness :
    handleResponseEvents ⟨true, false, 0⟩ ["000001"]
        (.error (GoError.simple "bad frame")) [1, 2] =
      [Event.callErrorHandler
        (.wrapped "failed to unpack message"
          (.unpackErr (GoError.simple "bad frame") [1, 2]))] :=
  (claim_C7_unpack ⟨true, false, 0⟩ ["000001"] (GoError.simple "bad frame")
    [1, 2] rfl).1

/-- C8: an inbound message that is not classified as a response never
touches the pending table (no lookup, insertion, or slot delivery); it is
handed to the `InboundMessageHandler` when one is configured and is
dropped silently otherwise. -/
theorem claim_C8_nonresponse (cfg : HandlerConfig) (respMap : List String)
    (m : Message) (raw : List Nat) (h : isResponse (some m) = false) :
    (∀ rid, Event.lookupPending rid ∉
        handleResponseEvents cfg respMap (.ok m) raw ∧
      Event.insertPending rid ∉ handleResponseEvents cfg respMap (.ok m) raw ∧
      Event.deliverReply rid ∉ handleResponseEvents cfg respMap (.ok m) raw) ∧
    (cfg.hasInboundMessageHandler = true →
      handleResponseEvents cfg respMap (.ok m) raw = [Event.callInboundHandler]) ∧
    (cfg.hasInboundMessageHandler = false →
      handleResponseEvents cfg respMap (.ok m) raw = []) := by
  have htr : handleResponseEvents cfg respMap (.ok m) raw =
      (if cfg.hasInboundMessageHandler then [Event.callInboundHandler] else []) := by
    simp [handleResponseEvents, h]
  refine ⟨?_, ?_, ?_⟩
  · intro rid
    rw [htr]
    by_cases hib : cfg.hasInboundMessageHandler <;> simp [hib]
  · intro hib
    rw [htr, if_pos hib]
  · intro hib
    rw [htr]
    simp [hib]

/-- Witness for C8: the MTI "0200" sample message bypasses the pending
table and, with no `InboundMessageHandler`, is dropped silently. -/
theorem claim_C8_nonresponse_witness :
    handleResponseEvents ⟨true, false, 0⟩ ["000001"] (.ok sampleInbound) [2, 0, 0] =
      [] :=
  (claim_C8_nonresponse ⟨true, false, 0⟩ ["000001"] sampleInbound [2, 0, 0]
    (by decide)).2.2 rfl

theorem closeCalls_of_closing (tcErr : Option GoError) (n : Nat)
    (st : LifeState) (h : st.closing = true) :
    closeCalls tcErr n st = ([], st) := by
  induction n with
  | zero => rfl
  | succ k ih =>
    simp [closeCalls, closeCall, h, ih]

/-- C9: `Close` is idempotent.  A `Close` on an already-closing connection
returns nil at once, changes nothing and performs no teardown action; any
number of sequential `Close` calls closes the done channel at most once
and the transport at most once. -/
theorem claim_C9_close_idempotent (tcErr : Option GoError) (st st0 : LifeState)
    (n : Nat) (h : st.closing = true) :
    closeCall tcErr st = (none, st, []) ∧
    countEv Event.closeDone (closeCalls tcErr n st0).1 ≤ 1 ∧
    countEv Event.closeTransport (closeCalls tcErr n st0).1 ≤ 1 := by
  have htrace : (closeCalls tcErr n st0).1 = [] ∨
      (closeCalls tcErr n st0).1 =
        Event.setClosing :: closeEvents st0.hasConn := by
    cases n with
    | zero => exact Or.inl rfl
    | succ k =>
      cases hcl : st0.closing
      · have hz := closeCalls_of_closing tcErr k { st0 with closing := true } rfl
        right
        simp [closeCalls, closeCall, hcl, hz]
      · left
        rw [closeCalls_of_closing tcErr (k + 1) st0 hcl]
  refine ⟨by simp [closeCall, h], ?_, ?_⟩
  · rcases htrace with ht | ht
    · rw [ht]
      decide
    · rw [ht]
      cases hc : st0.hasConn <;> simp [closeEvents, countEv, hc]
  · rcases htrace with ht | ht
    · rw [ht]
      decide
    · rw [ht]
      cases hc : st0.hasConn <;> simp [closeEvents, countEv, hc]

/-- Witness for C9: a second `Close` on a closing connection returns nil
with no action, and three sequential `Close` calls on a fresh connection
close the done channel at most once. -/
theorem claim_C9_close_idempotent_witness :
    closeCall none ⟨true, true⟩ = (none, ⟨true, true⟩, []) ∧
    countEv Event.closeDone (closeCalls none 3 ⟨false, true⟩).1 ≤ 1 :=
  ⟨(claim_C9_close_idempotent none ⟨true, true⟩ ⟨false, true⟩ 3 rfl).1,
   (claim_C9_close_idempotent none ⟨true, true⟩ ⟨false, true⟩ 3 rfl).2.1⟩

/-- C10: an `ErrUnpack` value renders exactly the message of its wrapped
underlying error (the raw bytes never enter the message), unwraps to that
underlying error, and `errors.Is` resolves through it. -/
theorem claim_C10_errUnpack (inner : GoError) (raw : List Nat) (t : GoError) :
    (GoError.unpackErr inner raw).errorMsg = inner.errorMsg ∧
    (GoError.unpackErr inner raw).unwrapErr = some inner ∧
    (inner.errorsIs t = true →
      (GoError.unpackErr inner raw).errorsIs t = true) := by
  refine ⟨rfl, rfl, ?_⟩
  intro h
  simp [GoError.errorsIs, h]

/-- Witness for C10: wrapping the error "parse" with raw bytes [1, 2]
keeps its message and stays matchable by `errors.Is`. -/
theorem claim_C10_errUnpack_witness :
    (GoError.unpackErr (GoError.simple "parse") [1, 2]).errorMsg =
      (GoError.simple "parse").errorMsg ∧
    (GoError.unpackErr (GoError.simple "parse") [1, 2]).errorsIs
      (GoError.simple "parse") = true :=
  ⟨(claim_C10_errUnpack (GoError.simple "parse") [1, 2]
      (GoError.simple "parse")).1,
   (claim_C10_errUnpack (GoError.simple "parse") [1, 2]
      (GoError.simple "parse")).2.2 (by decide)⟩

end Iso8583Conn
